import Mathlib

/-!
Shallow embedding of the `rust_eureka` client library, covering the typed
Instance serialization layer (`src/model/instance.rs`) and the Eureka HTTP
client's response handling and header setup (`src/eureka_client.rs`).

JSON values are modelled as an ordered tree: objects keep their field order
and may carry repeated keys, matching the streaming view a serde `MapAccess`
presents to a hand-written visitor.
-/

namespace Eureka

/-- A JSON value.  Objects are ordered lists of key/value pairs; a key may
occur more than once, as it can on the wire. -/
inductive Json where
  | str (s : String)
  | num (n : Nat)
  | null
  | arr (elems : List Json)
  | obj (entries : List (String × Json))

/-- The keys of a JSON object, in order (empty for non-objects). -/
def Json.keys : Json → List String
  | .obj entries => entries.map Prod.fst
  | _ => []

/-- Decode errors produced by the deserialization layer, mirroring the
`serde::de::Error` constructors used by `instance.rs`: `unknown_field`,
`duplicate_field`, `missing_field`, plus a catch-all for value type errors. -/
inductive DeErr where
  | unknownField (field : String) (expected : List String)
  | duplicateField (field : String)
  | missingField (field : String)
  | typeError

/-! ## Field name constants (`instance.rs` lines 13-33)

`SECURE_VIP_ADDRESS` is `"vipAddress"` in the source, exactly as written
there. -/

def INSTANCE : String := "Instance"
def HOST_NAME : String := "hostName"
def APP : String := "app"
def IP_ADDR : String := "ipAddr"
def VIP_ADDRESS : String := "vipAddress"
def SECURE_VIP_ADDRESS : String := "vipAddress"
def STATUS : String := "status"
def PORT : String := "port"
def SECURE_PORT : String := "securePort"
def HOME_PAGE_URL : String := "homePageUrl"
def STATUS_PAGE_URL : String := "statusPageUrl"
def HEALTH_CHECK_URL : String := "healthCheckUrl"
def DATA_CENTER_INFO : String := "dataCenterInfo"
def LEASE_INFO : String := "leaseInfo"
def METADATA : String := "metadata"

def JSON_FIELDS : List String :=
  [INSTANCE, HOST_NAME, APP, IP_ADDR, VIP_ADDRESS, SECURE_VIP_ADDRESS,
   STATUS, PORT, SECURE_PORT, HOME_PAGE_URL, STATUS_PAGE_URL, HEALTH_CHECK_URL,
   DATA_CENTER_INFO, LEASE_INFO, METADATA]

/-! ## Domain model

`Status`, `DcName`, `AmazonMetaData`, `DataCenterInfo` and `LeaseInfo` live in
model files that are not under `src/`; they are modelled from the spec (§3)
and from the wire shapes exhibited by the repository's own test. -/

/-- Modelled from the spec: the `Status` enum (`model/status.rs` is not under
`src/`); a closed enumeration UP, DOWN, STARTING, OUT_OF_SERVICE, UNKNOWN that
serializes to/from its literal string name. -/
inductive Status where
  | Up
  | Down
  | Starting
  | OutOfService
  | Unknown

/-- Modelled from the spec: serializes a `Status` to its literal string name. -/
def Status.serialize : Status → Json
  | .Up => .str "UP"
  | .Down => .str "DOWN"
  | .Starting => .str "STARTING"
  | .OutOfService => .str "OUT_OF_SERVICE"
  | .Unknown => .str "UNKNOWN"

/-- Modelled from the spec: decodes a `Status` from its literal string name;
an unrecognized literal is a decode error. -/
def decodeStatus : Json → Except DeErr Status
  | .str s =>
      if s = "UP" then .ok .Up
      else if s = "DOWN" then .ok .Down
      else if s = "STARTING" then .ok .Starting
      else if s = "OUT_OF_SERVICE" then .ok .OutOfService
      else if s = "UNKNOWN" then .ok .Unknown
      else .error .typeError
  | _ => .error .typeError

/-- Modelled from the spec: the datacenter name enum (`model/dcname.rs` is not
under `src/`); "Amazon" or a generic alternative. -/
inductive DcName where
  | Amazon
  | MyOwn

/-- Modelled from the spec: serializes a `DcName` to its literal name. -/
def DcName.serialize : DcName → Json
  | .Amazon => .str "Amazon"
  | .MyOwn => .str "MyOwn"

/-- Modelled from the spec: Amazon cloud-instance metadata
(`model/amazonmetadata.rs` is not under `src/`); eleven string attributes,
with the wire keys shown in the repository's `test_instance` fixture. -/
structure AmazonMetaData where
  ami_launch_index : String
  local_hostname : String
  availability_zone : String
  instance_id : String
  public_ip4 : String
  public_hostname : String
  ami_manifest_path : String
  local_ip4 : String
  hostname : String
  ami_id : String
  instance_type : String

/-- Modelled from the spec: serializes `AmazonMetaData` with the hyphenated
wire keys, in the order shown by the repository's test fixture. -/
def AmazonMetaData.serialize (m : AmazonMetaData) : Json :=
  .obj [("ami-launch-index", .str m.ami_launch_index),
        ("local-hostname", .str m.local_hostname),
        ("availability-zone", .str m.availability_zone),
        ("instance-id", .str m.instance_id),
        ("public-ipv4", .str m.public_ip4),
        ("public-hostname", .str m.public_hostname),
        ("ami-manifest-path", .str m.ami_manifest_path),
        ("local-ipv4", .str m.local_ip4),
        ("hostname", .str m.hostname),
        ("ami-id", .str m.ami_id),
        ("instance-type", .str m.instance_type)]

/-- Modelled from the spec: datacenter info (`model/datacenterinfo.rs` is not
under `src/`); a name plus an Amazon metadata payload. -/
structure DataCenterInfo where
  name : DcName
  metadata : AmazonMetaData

/-- Modelled from the spec: serializes `DataCenterInfo` as
an object with `name` and `metadata` keys. -/
def DataCenterInfo.serialize (d : DataCenterInfo) : Json :=
  .obj [("name", d.name.serialize), ("metadata", d.metadata.serialize)]

/-- Modelled from the spec: lease info (`model/leaseinfo.rs` is not under
`src/`); an optional eviction duration in seconds. -/
structure LeaseInfo where
  eviction_duration_in_secs : Option Nat

/-- Modelled from the spec: serializes `LeaseInfo` with the
`evictionDurationInSecs` wire key shown by the repository's test fixture. -/
def LeaseInfo.serialize (l : LeaseInfo) : Json :=
  .obj [("evictionDurationInSecs",
         match l.eviction_duration_in_secs with
         | some n => .num n
         | none => .null)]

/-- The registered service endpoint (`instance.rs` lines 35-51).  Machine
integers (`u16`) are modelled as `Nat`; the serializer only carries them. -/
structure Instance where
  host_name : String
  app : String
  ip_addr : String
  vip_address : String
  secure_vip_address : String
  status : Status
  port : Option Nat
  secure_port : Option Nat
  homepage_url : String
  status_page_url : String
  health_check_url : String
  data_center_info : DataCenterInfo
  lease_info : Option LeaseInfo
  metadata : List String

/-- Serialization of an optional number: `None` is emitted as null. -/
def serializeOptNat : Option Nat → Json
  | some n => .num n
  | none => .null

/-- Serialization of an optional lease: `None` is emitted as null. -/
def serializeOptLease : Option LeaseInfo → Json
  | some l => l.serialize
  | none => .null

/-- `impl Serialize for Instance` (`instance.rs` lines 53-73): fourteen fields
emitted in order under the field name constants, the fifth one under
`SECURE_VIP_ADDRESS`. -/
def Instance.serialize (i : Instance) : Json :=
  .obj [(HOST_NAME, .str i.host_name),
        (APP, .str i.app),
        (IP_ADDR, .str i.ip_addr),
        (VIP_ADDRESS, .str i.vip_address),
        (SECURE_VIP_ADDRESS, .str i.secure_vip_address),
        (STATUS, i.status.serialize),
        (PORT, serializeOptNat i.port),
        (SECURE_PORT, serializeOptNat i.secure_port),
        (HOME_PAGE_URL, .str i.homepage_url),
        (STATUS_PAGE_URL, .str i.status_page_url),
        (HEALTH_CHECK_URL, .str i.health_check_url),
        (DATA_CENTER_INFO, i.data_center_info.serialize),
        (LEASE_INFO, serializeOptLease i.lease_info),
        (METADATA, .arr (i.metadata.map Json.str))]

/-! ## Deserialization (`instance.rs` lines 75-277) -/

/-- The field identifier enum inside `Deserialize for Instance`
(`instance.rs` lines 78-93). -/
inductive Field where
  | hostName
  | app
  | ipAddr
  | vipAddress
  | secureVipAddress
  | status
  | port
  | securePort
  | homepageUrl
  | statusPageUrl
  | healthCheckUrl
  | dataCenterInfo
  | leaseInfo
  | metadata

/-- `FieldVisitor::visit_str` (`instance.rs` lines 106-120): first-match
string dispatch over the field name constants.  The match arm order is the
source's; as in the source, only nine arms precede the catch-all, and the
`SECURE_VIP_ADDRESS` arm is shadowed because that constant equals
`VIP_ADDRESS`. -/
def Field.fromStr (v : String) : Except DeErr Field :=
  if v = HOST_NAME then .ok .hostName
  else if v = APP then .ok .app
  else if v = IP_ADDR then .ok .ipAddr
  else if v = VIP_ADDRESS then .ok .vipAddress
  else if v = SECURE_VIP_ADDRESS then .ok .secureVipAddress
  else if v = STATUS then .ok .status
  else if v = PORT then .ok .port
  else if v = SECURE_PORT then .ok .securePort
  else if v = HOME_PAGE_URL then .ok .homepageUrl
  else .error (.unknownField v JSON_FIELDS)

/-- `next_value::<String>()`: a JSON string, anything else is a type error. -/
def decodeString : Json → Except DeErr String
  | .str s => .ok s
  | _ => .error .typeError

/-- `next_value::<Option<u16>>()`: null decodes to `None`, an in-range number
to `Some`; anything else is a type error. -/
def decodeOptU16 : Json → Except DeErr (Option Nat)
  | .null => .ok none
  | .num n => if n < 65536 then .ok (some n) else .error .typeError
  | _ => .error .typeError

/-- First value bound to a key in an object's entry list. -/
def lookupKey (k : String) : List (String × Json) → Option Json
  | [] => none
  | (k', v) :: rest => if k' = k then some v else lookupKey k rest

/-- Modelled from the spec: a required string attribute of a nested object. -/
def lookupString (k : String) (entries : List (String × Json)) : Except DeErr String :=
  match lookupKey k entries with
  | some (.str s) => .ok s
  | _ => .error .typeError

/-- Modelled from the spec: decodes a `DcName` from its literal name. -/
def decodeDcName : Json → Except DeErr DcName
  | .str s =>
      if s = "Amazon" then .ok .Amazon
      else if s = "MyOwn" then .ok .MyOwn
      else .error .typeError
  | _ => .error .typeError

/-- Modelled from the spec: decodes `AmazonMetaData` from its eleven
hyphenated wire keys. -/
def decodeAmazonMetaData : Json → Except DeErr AmazonMetaData
  | .obj entries => do
      let ali ← lookupString "ami-launch-index" entries
      let lh ← lookupString "local-hostname" entries
      let az ← lookupString "availability-zone" entries
      let iid ← lookupString "instance-id" entries
      let pi4 ← lookupString "public-ipv4" entries
      let ph ← lookupString "public-hostname" entries
      let amp ← lookupString "ami-manifest-path" entries
      let li4 ← lookupString "local-ipv4" entries
      let hn ← lookupString "hostname" entries
      let aid ← lookupString "ami-id" entries
      let it ← lookupString "instance-type" entries
      pure ⟨ali, lh, az, iid, pi4, ph, amp, li4, hn, aid, it⟩
  | _ => .error .typeError

/-- Modelled from the spec: decodes `DataCenterInfo` from its `name` and
`metadata` keys. -/
def decodeDataCenterInfo : Json → Except DeErr DataCenterInfo
  | .obj entries => do
      let n ← match lookupKey "name" entries with
              | some v => decodeDcName v
              | none => .error (.missingField "name")
      let m ← match lookupKey "metadata" entries with
              | some v => decodeAmazonMetaData v
              | none => .error (.missingField "metadata")
      pure ⟨n, m⟩
  | _ => .error .typeError

/-- Modelled from the spec: decodes a `LeaseInfo` whose eviction duration is
optional. -/
def decodeLeaseInfo : Json → Except DeErr LeaseInfo
  | .obj entries =>
      match lookupKey "evictionDurationInSecs" entries with
      | some (.num n) => .ok ⟨some n⟩
      | some .null => .ok ⟨none⟩
      | none => .ok ⟨none⟩
      | some _ => .error .typeError
  | _ => .error .typeError

/-- `next_value::<Option<LeaseInfo>>()`: null decodes to `None`. -/
def decodeOptLeaseInfo : Json → Except DeErr (Option LeaseInfo)
  | .null => .ok none
  | j => match decodeLeaseInfo j with
         | .ok l => .ok (some l)
         | .error e => .error e

/-- `next_value::<Vec<String>>()`: a JSON array of strings. -/
def decodeStringList : List Json → Except DeErr (List String)
  | [] => .ok []
  | .str s :: rest =>
      match decodeStringList rest with
      | .ok l => .ok (s :: l)
      | .error e => .error e
  | _ :: _ => .error .typeError

/-- `next_value::<Vec<String>>()` on a JSON value. -/
def decodeMetadata : Json → Except DeErr (List String)
  | .arr elems => decodeStringList elems
  | _ => .error .typeError

/-- The fourteen `maybe_*` slots of `InstanceVisitor::visit_map`
(`instance.rs` lines 138-151). -/
structure DeState where
  host_name : Option String
  app : Option String
  ip_addr : Option String
  vip_address : Option String
  secure_vip_address : Option String
  status : Option Status
  port : Option (Option Nat)
  secure_port : Option (Option Nat)
  homepage_url : Option String
  status_page_url : Option String
  health_check_url : Option String
  data_center_info : Option DataCenterInfo
  lease_info : Option (Option LeaseInfo)
  metadata : Option (List String)

/-- All slots unset, as at the top of `visit_map`. -/
def initState : DeState :=
  ⟨none, none, none, none, none, none, none, none, none, none, none, none, none, none⟩

/-- One iteration of the `visit_map` loop body (`instance.rs` lines 154-239):
per-field duplicate check, then value decode, then slot update.  Arms appear
in the source's order; as in the source, the `homepageUrl` arm's duplicate
check inspects the `host_name` slot. -/
def handleField (st : DeState) : Field → Json → Except DeErr DeState
  | .homepageUrl, v =>
      if st.host_name.isSome then .error (.duplicateField HOME_PAGE_URL)
      else match decodeString v with
           | .ok a => .ok { st with homepage_url := some a }
           | .error e => .error e
  | .app, v =>
      if st.app.isSome then .error (.duplicateField APP)
      else match decodeString v with
           | .ok a => .ok { st with app := some a }
           | .error e => .error e
  | .ipAddr, v =>
      if st.ip_addr.isSome then .error (.duplicateField IP_ADDR)
      else match decodeString v with
           | .ok a => .ok { st with ip_addr := some a }
           | .error e => .error e
  | .vipAddress, v =>
      if st.vip_address.isSome then .error (.duplicateField VIP_ADDRESS)
      else match decodeString v with
           | .ok a => .ok { st with vip_address := some a }
           | .error e => .error e
  | .secureVipAddress, v =>
      if st.secure_vip_address.isSome then .error (.duplicateField SECURE_VIP_ADDRESS)
      else match decodeString v with
           | .ok a => .ok { st with secure_vip_address := some a }
           | .error e => .error e
  | .status, v =>
      if st.status.isSome then .error (.duplicateField STATUS)
      else match decodeStatus v with
           | .ok a => .ok { st with status := some a }
           | .error e => .error e
  | .port, v =>
      if st.port.isSome then .error (.duplicateField PORT)
      else match decodeOptU16 v with
           | .ok a => .ok { st with port := some a }
           | .error e => .error e
  | .securePort, v =>
      if st.secure_port.isSome then .error (.duplicateField SECURE_PORT)
      else match decodeOptU16 v with
           | .ok a => .ok { st with secure_port := some a }
           | .error e => .error e
  | .statusPageUrl, v =>
      if st.status_page_url.isSome then .error (.duplicateField STATUS_PAGE_URL)
      else match decodeString v with
           | .ok a => .ok { st with status_page_url := some a }
           | .error e => .error e
  | .healthCheckUrl, v =>
      if st.health_check_url.isSome then .error (.duplicateField HEALTH_CHECK_URL)
      else match decodeString v with
           | .ok a => .ok { st with health_check_url := some a }
           | .error e => .error e
  | .dataCenterInfo, v =>
      if st.data_center_info.isSome then .error (.duplicateField DATA_CENTER_INFO)
      else match decodeDataCenterInfo v with
           | .ok a => .ok { st with data_center_info := some a }
           | .error e => .error e
  | .leaseInfo, v =>
      if st.lease_info.isSome then .error (.duplicateField LEASE_INFO)
      else match decodeOptLeaseInfo v with
           | .ok a => .ok { st with lease_info := some a }
           | .error e => .error e
  | .metadata, v =>
      if st.metadata.isSome then .error (.duplicateField METADATA)
      else match decodeMetadata v with
           | .ok a => .ok { st with metadata := some a }
           | .error e => .error e
  | .hostName, v =>
      if st.host_name.isSome then .error (.duplicateField HOST_NAME)
      else match decodeString v with
           | .ok a => .ok { st with host_name := some a }
           | .error e => .error e

/-- A `next_key` / `next_value` step: parse the field identifier, then run the
matching arm. -/
def processEntry (st : DeState) : String × Json → Except DeErr DeState
  | (k, v) =>
      match Field.fromStr k with
      | .ok f => handleField st f v
      | .error e => .error e

/-- The `while let Some(key) = map.next_key()?` loop: entries are consumed in
order and the first error aborts. -/
def processEntries (st : DeState) : List (String × Json) → Except DeErr DeState
  | [] => .ok st
  | kv :: rest =>
      match processEntry st kv with
      | .ok st' => processEntries st' rest
      | .error e => .error e

/-- The post-loop extraction (`instance.rs` lines 242-272): `ok_or_else`
results are forced by `?` in struct-literal order, so the first unset slot in
that order names the missing field. -/
def finish (st : DeState) : Except DeErr Instance :=
  match st.host_name with
  | none => .error (.missingField HOST_NAME)
  | some host_name =>
  match st.app with
  | none => .error (.missingField APP)
  | some app =>
  match st.ip_addr with
  | none => .error (.missingField IP_ADDR)
  | some ip_addr =>
  match st.vip_address with
  | none => .error (.missingField VIP_ADDRESS)
  | some vip_address =>
  match st.secure_vip_address with
  | none => .error (.missingField SECURE_VIP_ADDRESS)
  | some secure_vip_address =>
  match st.status with
  | none => .error (.missingField STATUS)
  | some status =>
  match st.port with
  | none => .error (.missingField PORT)
  | some port =>
  match st.secure_port with
  | none => .error (.missingField SECURE_PORT)
  | some secure_port =>
  match st.homepage_url with
  | none => .error (.missingField HOME_PAGE_URL)
  | some homepage_url =>
  match st.status_page_url with
  | none => .error (.missingField STATUS_PAGE_URL)
  | some status_page_url =>
  match st.health_check_url with
  | none => .error (.missingField HEALTH_CHECK_URL)
  | some health_check_url =>
  match st.data_center_info with
  | none => .error (.missingField DATA_CENTER_INFO)
  | some data_center_info =>
  match st.lease_info with
  | none => .error (.missingField LEASE_INFO)
  | some lease_info =>
  match st.metadata with
  | none => .error (.missingField METADATA)
  | some metadata =>
  .ok ⟨host_name, app, ip_addr, vip_address, secure_vip_address, status, port,
       secure_port, homepage_url, status_page_url, health_check_url,
       data_center_info, lease_info, metadata⟩

/-- `impl Deserialize for Instance`: a JSON object is consumed entry by entry
through `visit_map`; anything else is a type error. -/
def Instance.deserialize : Json → Except DeErr Instance
  | .obj entries =>
      match processEntries initState entries with
      | .ok st => finish st
      | .error e => .error e
  | _ => .error .typeError

/-! ## The repository's test fixture (`instance.rs` lines 286-357) -/

/-- The `Instance` built in `tests::test_instance`. -/
def testInstance : Instance :=
  { host_name := "Foo"
    app := "Bar"
    ip_addr := "3.128.2.12"
    vip_address := "127.0.0.1"
    secure_vip_address := "127.0.0.2"
    status := .Up
    port := some 80
    secure_port := some 443
    homepage_url := "http://google.com"
    status_page_url := "http://nytimes.com"
    health_check_url := "http://washingtonpost.com"
    data_center_info :=
      { name := .Amazon
        metadata :=
          { ami_launch_index := "001a"
            local_hostname := "localhost0"
            availability_zone := "US_East1a"
            instance_id := "instance1a"
            public_ip4 := "32.23.21.212"
            public_hostname := "foo.coma"
            ami_manifest_path := "/dev/nulla"
            local_ip4 := "127.0.0.12"
            hostname := "privatefoo.coma"
            ami_id := "ami0023"
            instance_type := "c4xlarged" } }
    lease_info := some ⟨some 9600⟩
    metadata := ["something"] }

/-- The Amazon metadata object of the test fixture, on the wire. -/
def testAmazonJson : Json :=
  .obj [("ami-launch-index", .str "001a"),
        ("local-hostname", .str "localhost0"),
        ("availability-zone", .str "US_East1a"),
        ("instance-id", .str "instance1a"),
        ("public-ipv4", .str "32.23.21.212"),
        ("public-hostname", .str "foo.coma"),
        ("ami-manifest-path", .str "/dev/nulla"),
        ("local-ipv4", .str "127.0.0.12"),
        ("hostname", .str "privatefoo.coma"),
        ("ami-id", .str "ami0023"),
        ("instance-type", .str "c4xlarged")]

/-- The entries of the JSON object the test's expected string denotes, with a
distinct `secureVipAddress` key as written in that literal. -/
def testWireEntries : List (String × Json) :=
  [("hostName", .str "Foo"),
   ("app", .str "Bar"),
   ("ipAddr", .str "3.128.2.12"),
   ("vipAddress", .str "127.0.0.1"),
   ("secureVipAddress", .str "127.0.0.2"),
   ("status", .str "UP"),
   ("port", .num 80),
   ("securePort", .num 443),
   ("homePageUrl", .str "http://google.com"),
   ("statusPageUrl", .str "http://nytimes.com"),
   ("healthCheckUrl", .str "http://washingtonpost.com"),
   ("dataCenterInfo", .obj [("name", .str "Amazon"), ("metadata", testAmazonJson)]),
   ("leaseInfo", .obj [("evictionDurationInSecs", .num 9600)]),
   ("metadata", .arr [.str "something"])]

/-- The JSON object the test's expected string denotes. -/
def testExpectedJson : Json := .obj testWireEntries

/-- What `Instance::serialize` actually produces on the test fixture: the
fifth key is `vipAddress` again, because `SECURE_VIP_ADDRESS` is
`"vipAddress"`. -/
def testActualJson : Json :=
  .obj [("hostName", .str "Foo"),
        ("app", .str "Bar"),
        ("ipAddr", .str "3.128.2.12"),
        ("vipAddress", .str "127.0.0.1"),
        ("vipAddress", .str "127.0.0.2"),
        ("status", .str "UP"),
        ("port", .num 80),
        ("securePort", .num 443),
        ("homePageUrl", .str "http://google.com"),
        ("statusPageUrl", .str "http://nytimes.com"),
        ("healthCheckUrl", .str "http://washingtonpost.com"),
        ("dataCenterInfo", .obj [("name", .str "Amazon"), ("metadata", testAmazonJson)]),
        ("leaseInfo", .obj [("evictionDurationInSecs", .num 9600)]),
        ("metadata", .arr [.str "something"])]

/-! ## The HTTP client (`eureka_client.rs`)

The error taxonomy (`errors.rs`) and the response envelopes (`response.rs`)
are not under `src/`; they are modelled from the spec (§4.2, §3, §6). -/

/-- Modelled from the spec: the closed error taxonomy of §4.2 (`errors.rs` is
not under `src/`): NotFound, BadRequest, InternalServerError,
TransportError. -/
inductive EurekaClientError where
  | notFound
  | badRequest
  | internalServerError
  | transportError

/-- A failure of the underlying network/transport layer. -/
inductive TransportFailure where
  | failure

/-- An HTTP response as the client observes it: a status code and a JSON
body. -/
structure HttpResponse where
  status : Nat
  body : Json

/-- Modelled from the spec: the `{"application": ...}`-shaped envelope of §6
(`response.rs` is not under `src/`); the payload shape beyond the envelope key
is not specified, so it is kept as JSON. -/
structure ApplicationResponse where
  application : Json

/-- Modelled from the spec: the envelope wrapping the full list of
applications (`response.rs` is not under `src/`). -/
structure ApplicationsResponse where
  applications : Json

/-- Modelled from the spec: decoding a response body as an
`ApplicationResponse` requires the `application` envelope key. -/
def decodeApplicationResponse : Json → Except DeErr ApplicationResponse
  | .obj entries =>
      match lookupKey "application" entries with
      | some v => .ok ⟨v⟩
      | none => .error (.missingField "application")
  | _ => .error .typeError

/-- Modelled from the spec: decoding a response body as an
`ApplicationsResponse` requires the `applications` envelope key. -/
def decodeApplicationsResponse : Json → Except DeErr ApplicationsResponse
  | .obj entries =>
      match lookupKey "applications" entries with
      | some v => .ok ⟨v⟩
      | none => .error (.missingField "applications")
  | _ => .error .typeError

/-- `EurekaClient::register` response handling (`eureka_client.rs` lines
50-63), over a mock transport: a transport failure maps to `TransportError`;
status 400 (`StatusCode::BadRequest`) to `BadRequest`; status 500
(`StatusCode::InternalServerError`) to `InternalServerError`; every other
status succeeds with no value. -/
def register (resp : Except TransportFailure HttpResponse) : Except EurekaClientError Unit :=
  match resp with
  | .error _ => .error .transportError
  | .ok r =>
      if r.status = 400 then .error .badRequest
      else if r.status = 500 then .error .internalServerError
      else .ok ()

/-- `EurekaClient::get_application` response handling (`eureka_client.rs`
lines 84-109): status 404 (`StatusCode::NotFound`) maps to `NotFound`
regardless of the body; any other status decodes the body, a decode failure
surfacing as `TransportError` and a decode success returning the value; a
transport failure maps to `TransportError`. -/
def getApplication (resp : Except TransportFailure HttpResponse) :
    Except EurekaClientError ApplicationResponse :=
  match resp with
  | .error _ => .error .transportError
  | .ok r =>
      if r.status = 404 then .error .notFound
      else match decodeApplicationResponse r.body with
           | .ok a => .ok a
           | .error _ => .error .transportError

/-- `EurekaClient::get_applications` response handling (`eureka_client.rs`
lines 131-166): the same branching as `get_application`, producing an
`ApplicationsResponse`. -/
def getApplications (resp : Except TransportFailure HttpResponse) :
    Except EurekaClientError ApplicationsResponse :=
  match resp with
  | .error _ => .error .transportError
  | .ok r =>
      if r.status = 404 then .error .notFound
      else match decodeApplicationsResponse r.body with
           | .ok a => .ok a
           | .error _ => .error .transportError

/-! ## Request headers (`eureka_client.rs` lines 39-48, 76-82, 124-129,
174-181) -/

/-- An HTTP request header as set by the client. -/
inductive Header where
  | accept (mime : String)
  | contentType (mime : String)
  | acceptCharset (charset : String)
  | userAgent (value : String)
  | acceptEncoding (encoding : String)
  | contentLength (len : Nat)
  deriving BEq

/-- `EurekaClient::set_headers` (`eureka_client.rs` lines 174-181): the four
standard headers, the user agent being the fixed prefix `"Rust Hyper/"`
concatenated with the configured client name. -/
def set_headers (client_name : String) : List Header :=
  [.accept "application/json",
   .contentType "application/json",
   .acceptCharset "utf-8",
   .userAgent ("Rust Hyper/" ++ client_name)]

/-- The headers of a `register` request: the standard headers plus an
explicit content length (`eureka_client.rs` lines 44-47). -/
def registerHeaders (client_name : String) (body_len : Nat) : List Header :=
  set_headers client_name ++ [.contentLength body_len]

/-- The headers of a `get_application` request: the standard headers plus
`Accept-Encoding: gzip` (`eureka_client.rs` lines 79-82). -/
def getApplicationHeaders (client_name : String) : List Header :=
  set_headers client_name ++ [.acceptEncoding "gzip"]

/-- The headers of a `get_applications` request: just the standard headers
(`eureka_client.rs` line 129). -/
def getApplicationsHeaders (client_name : String) : List Header :=
  set_headers client_name

/-! ## Claim theorems -/

/-- Claim C1 (refuted; the code is at fault): decoding the result of encoding
never yields the value back.  For every `Instance` the serializer emits the
key `vipAddress` twice (the `SECURE_VIP_ADDRESS` constant is `"vipAddress"`),
so the deserializer aborts with a duplicate-field error naming `vipAddress`
instead of returning the instance. -/
theorem C1_decode_encode_always_fails (x : Instance) :
    Instance.deserialize (Instance.serialize x) =
      .error (.duplicateField VIP_ADDRESS) := rfl

/-- Claim C2 (refuted; the code contradicts its own test): serializing the
repository test's instance emits the secure VIP address under a second
`vipAddress` key, not under the `secureVipAddress` key the test's expected
string (and the claim) demand. -/
theorem C2_serializer_emits_vipAddress_twice :
    Instance.serialize testInstance = testActualJson ∧
    Json.keys testActualJson =
      [HOST_NAME, APP, IP_ADDR, VIP_ADDRESS, VIP_ADDRESS, STATUS, PORT,
       SECURE_PORT, HOME_PAGE_URL, STATUS_PAGE_URL, HEALTH_CHECK_URL,
       DATA_CENTER_INFO, LEASE_INFO, METADATA] ∧
    (Json.keys testActualJson).contains "secureVipAddress" = false ∧
    (Json.keys testExpectedJson).contains "secureVipAddress" = true :=
  ⟨rfl, rfl, rfl, rfl⟩

/-- Claim C3 (refuted; the code is at fault): a JSON object in which
`homePageUrl` occurs twice is not rejected with a duplicate-field error,
because the `homepageUrl` arm's duplicate check inspects the `host_name` slot;
both occurrences are consumed silently and decoding fails later for an
unrelated reason (here: missing `hostName`). -/
theorem C3_duplicate_homePageUrl_not_reported :
    Instance.deserialize
      (.obj [(HOME_PAGE_URL, .str "u1"), (HOME_PAGE_URL, .str "u2")]) =
      .error (.missingField HOST_NAME) := rfl

/-- Claim C4 (refuted; the code is at fault): decoding the full wire object
with only `port` omitted does not succeed with `port = None`; it fails, here
with an unknown-field error on `secureVipAddress` (the identifier parser
recognizes only nine names).  Even over recognized keys only, the
`Option`-typed fields are required: with `port` omitted the extraction phase
reports a missing field (`vipAddress`, i.e. `SECURE_VIP_ADDRESS`, whose slot
can never be filled). -/
theorem C4_omitting_port_counterexample :
    Instance.deserialize (.obj (testWireEntries.filter (fun kv => kv.1 ≠ PORT))) =
      .error (.unknownField "secureVipAddress" JSON_FIELDS) ∧
    Instance.deserialize
      (.obj [(HOME_PAGE_URL, .str "u1"),
             (APP, .str "Bar"),
             (IP_ADDR, .str "3.128.2.12"),
             (VIP_ADDRESS, .str "127.0.0.1"),
             (STATUS, .str "UP"),
             (SECURE_PORT, .num 443),
             (HOST_NAME, .str "Foo")]) =
      .error (.missingField SECURE_VIP_ADDRESS) :=
  ⟨rfl, rfl⟩

/-! ### Helper lemmas about the deserializer -/

/-- Splitting the `visit_map` loop at a list append: the first segment runs to
completion (or its error aborts the whole loop), then the second continues
from the reached state. -/
theorem processEntries_append (st : DeState) (l1 l2 : List (String × Json)) :
    processEntries st (l1 ++ l2) =
      match processEntries st l1 with
      | .ok s => processEntries s l2
      | .error e => .error e := by
  induction l1 generalizing st with
  | nil => rfl
  | cons kv tl ih =>
      simp only [List.cons_append, processEntries]
      cases processEntry st kv with
      | ok s => exact ih s
      | error e => rfl

/-- The identifier parser never produces the `secureVipAddress` field: the
arm that would is shadowed by the `vipAddress` arm, both constants being the
string `"vipAddress"`. -/
theorem fromStr_not_secure (k : String) : Field.fromStr k ≠ .ok .secureVipAddress := by
  unfold Field.fromStr
  intro h
  split at h
  · exact Field.noConfusion (Except.ok.inj h)
  split at h
  · exact Field.noConfusion (Except.ok.inj h)
  split at h
  · exact Field.noConfusion (Except.ok.inj h)
  split at h
  · exact Field.noConfusion (Except.ok.inj h)
  split at h
  · rename_i hvip hsec
    exact hvip hsec
  split at h
  · exact Field.noConfusion (Except.ok.inj h)
  split at h
  · exact Field.noConfusion (Except.ok.inj h)
  split at h
  · exact Field.noConfusion (Except.ok.inj h)
  split at h
  · exact Field.noConfusion (Except.ok.inj h)
  exact Except.noConfusion h

/-- A single loop step leaves the `secure_vip_address` slot unset. -/
theorem processEntry_secure_vip (st : DeState) (kv : String × Json) (st' : DeState)
    (h : processEntry st kv = .ok st') (h0 : st.secure_vip_address = none) :
    st'.secure_vip_address = none := by
  obtain ⟨k, v⟩ := kv
  simp only [processEntry] at h
  cases hf : Field.fromStr k with
  | error e => rw [hf] at h; exact Except.noConfusion h
  | ok f =>
      rw [hf] at h
      cases f
      case secureVipAddress => exact absurd hf (fromStr_not_secure k)
      all_goals
        simp only [handleField] at h
        split at h
        · exact Except.noConfusion h
        · split at h
          · injection h with h2
            subst h2
            exact h0
          · exact Except.noConfusion h

/-- The whole loop leaves the `secure_vip_address` slot unset. -/
theorem processEntries_secure_vip (entries : List (String × Json)) (st st' : DeState)
    (h : processEntries st entries = .ok st') (h0 : st.secure_vip_address = none) :
    st'.secure_vip_address = none := by
  induction entries generalizing st with
  | nil =>
      simp only [processEntries] at h
      injection h with h2
      subst h2
      exact h0
  | cons kv tl ih =>
      simp only [processEntries] at h
      cases hpe : processEntry st kv with
      | error e => rw [hpe] at h; exact Except.noConfusion h
      | ok s =>
          rw [hpe] at h
          exact ih s h (processEntry_secure_vip st kv s hpe h0)

/-- The extraction phase fails whenever the `secure_vip_address` slot is
unset. -/
theorem finish_secure_missing (st : DeState) (h0 : st.secure_vip_address = none) :
    ∃ e, finish st = .error e := by
  obtain ⟨f1, f2, f3, f4, f5, f6, f7, f8, f9, f10, f11, f12, f13, f14⟩ := st
  cases f5 with
  | some v => exact Option.noConfusion h0
  | none => cases f1 <;> cases f2 <;> cases f3 <;> cases f4 <;> exact ⟨_, rfl⟩

/-- Claim C4, amended (general form): no JSON value whatsoever decodes to an
`Instance` — the `secure_vip_address` slot can never be filled, so decoding
always ends in an error; in particular decoding with `port`, `securePort` or
`leaseInfo` omitted fails instead of succeeding with an absent value. -/
theorem C4_deserialize_never_succeeds (j : Json) :
    ∃ e, Instance.deserialize j = .error e := by
  cases j with
  | obj entries =>
      simp only [Instance.deserialize]
      cases hpe : processEntries initState entries with
      | error e => exact ⟨e, rfl⟩
      | ok st =>
          have h0 := processEntries_secure_vip entries initState st hpe rfl
          obtain ⟨e, he⟩ := finish_secure_missing st h0
          exact ⟨e, he⟩
  | str s => exact ⟨.typeError, rfl⟩
  | num n => exact ⟨.typeError, rfl⟩
  | null => exact ⟨.typeError, rfl⟩
  | arr elems => exact ⟨.typeError, rfl⟩

/-- Claim C5 (refuted; the code is at fault): removing the required
`hostName` field from the full wire object does not produce a missing-field
error naming `hostName`; decoding fails earlier with an unknown-field error
on `secureVipAddress`, a schema key the identifier parser does not accept. -/
theorem C5_missing_hostName_misreported :
    Instance.deserialize (.obj (testWireEntries.filter (fun kv => kv.1 ≠ HOST_NAME))) =
      .error (.unknownField "secureVipAddress" JSON_FIELDS) := rfl

/-- A name outside the `JSON_FIELDS` list matches none of the identifier
parser's arms, so it is rejected naming the offender and listing
`JSON_FIELDS` (every name the parser does match belongs to that list). -/
theorem fromStr_unknown (k : String) (h : k ∉ JSON_FIELDS) :
    Field.fromStr k = .error (.unknownField k JSON_FIELDS) := by
  have h1 : k ≠ HOST_NAME := by intro hk; subst hk; exact h (by decide)
  have h2 : k ≠ APP := by intro hk; subst hk; exact h (by decide)
  have h3 : k ≠ IP_ADDR := by intro hk; subst hk; exact h (by decide)
  have h4 : k ≠ VIP_ADDRESS := by intro hk; subst hk; exact h (by decide)
  have h5 : k ≠ SECURE_VIP_ADDRESS := by intro hk; subst hk; exact h (by decide)
  have h6 : k ≠ STATUS := by intro hk; subst hk; exact h (by decide)
  have h7 : k ≠ PORT := by intro hk; subst hk; exact h (by decide)
  have h8 : k ≠ SECURE_PORT := by intro hk; subst hk; exact h (by decide)
  have h9 : k ≠ HOME_PAGE_URL := by intro hk; subst hk; exact h (by decide)
  simp [Field.fromStr, h1, h2, h3, h4, h5, h6, h7, h8, h9]

/-- Claim C6 (confirmed): whenever the loop reaches a key that lies outside
the `JSON_FIELDS` list (the earlier entries having been consumed without
error), decoding fails with an unknown-field error identifying that key and
listing the `JSON_FIELDS` names. -/
theorem C6_unknown_field_rejected (pre rest : List (String × Json)) (k : String) (v : Json)
    (st : DeState)
    (h1 : processEntries initState pre = .ok st)
    (h2 : k ∉ JSON_FIELDS) :
    Instance.deserialize (.obj (pre ++ (k, v) :: rest)) =
      .error (.unknownField k JSON_FIELDS) := by
  simp only [Instance.deserialize, processEntries_append, h1]
  simp only [processEntries, processEntry, fromStr_unknown k h2]

/-- Witness for C6 at the concrete key `bogus`. -/
theorem C6_unknown_field_rejected_witness :
    Instance.deserialize (.obj [("bogus", Json.null)]) =
      .error (.unknownField "bogus" JSON_FIELDS) :=
  C6_unknown_field_rejected [] [] "bogus" Json.null initState rfl (by decide)

/-- Claim C7 (confirmed): `register` maps status 400 to `BadRequest`, status
500 to `InternalServerError`, every other status to success with no value,
and a transport failure to `TransportError`. -/
theorem C7_register_status_mapping (s : Nat) (b : Json) (e : TransportFailure)
    (h400 : s ≠ 400) (h500 : s ≠ 500) :
    register (.ok ⟨400, b⟩) = .error .badRequest ∧
    register (.ok ⟨500, b⟩) = .error .internalServerError ∧
    register (.ok ⟨s, b⟩) = .ok () ∧
    register (.error e) = .error .transportError := by
  refine ⟨rfl, rfl, ?_, rfl⟩
  simp [register, h400, h500]

/-- Witness for C7 at statuses 400, 500 and 200. -/
theorem C7_register_status_mapping_witness :
    (200 ≠ 400 ∧ 200 ≠ 500) ∧
    register (.ok ⟨400, Json.null⟩) = .error .badRequest ∧
    register (.ok ⟨500, Json.null⟩) = .error .internalServerError ∧
    register (.ok ⟨200, Json.null⟩) = .ok () ∧
    register (.error .failure) = .error .transportError :=
  ⟨⟨by decide, by decide⟩,
   C7_register_status_mapping 200 Json.null .failure (by decide) (by decide)⟩

/-- Claim C8 (confirmed): `get_application` and `get_applications` both map
status 404 to `NotFound` regardless of the body; on any other status they
decode the body, a decode failure surfacing as `TransportError` and a decode
success returning the typed value; a transport failure maps to
`TransportError` — identical branching in both operations. -/
theorem C8_fetch_branching (s : Nat) (b bBad bGood bBad2 bGood2 : Json)
    (e : TransportFailure) (a a2 : Json) (d d2 : DeErr)
    (h404 : s ≠ 404)
    (hBad : decodeApplicationResponse bBad = .error d)
    (hGood : decodeApplicationResponse bGood = .ok ⟨a⟩)
    (hBad2 : decodeApplicationsResponse bBad2 = .error d2)
    (hGood2 : decodeApplicationsResponse bGood2 = .ok ⟨a2⟩) :
    getApplication (.ok ⟨404, b⟩) = .error .notFound ∧
    getApplication (.ok ⟨s, bBad⟩) = .error .transportError ∧
    getApplication (.ok ⟨s, bGood⟩) = .ok ⟨a⟩ ∧
    getApplication (.error e) = .error .transportError ∧
    getApplications (.ok ⟨404, b⟩) = .error .notFound ∧
    getApplications (.ok ⟨s, bBad2⟩) = .error .transportError ∧
    getApplications (.ok ⟨s, bGood2⟩) = .ok ⟨a2⟩ ∧
    getApplications (.error e) = .error .transportError := by
  refine ⟨rfl, ?_, ?_, rfl, rfl, ?_, ?_, rfl⟩ <;>
    simp [getApplication, getApplications, h404, hBad, hGood, hBad2, hGood2]

/-- Witness for C8 at status 200 with decodable and undecodable bodies. -/
theorem C8_fetch_branching_witness :
    (200 ≠ 404) ∧
    getApplication (.ok ⟨404, Json.null⟩) = .error .notFound ∧
    getApplication (.ok ⟨200, Json.null⟩) = .error .transportError ∧
    getApplication (.ok ⟨200, Json.obj [("application", Json.null)]⟩) = .ok ⟨Json.null⟩ ∧
    getApplication (.error .failure) = .error .transportError ∧
    getApplications (.ok ⟨404, Json.null⟩) = .error .notFound ∧
    getApplications (.ok ⟨200, Json.null⟩) = .error .transportError ∧
    getApplications (.ok ⟨200, Json.obj [("applications", Json.null)]⟩) = .ok ⟨Json.null⟩ ∧
    getApplications (.error .failure) = .error .transportError :=
  ⟨by decide,
   C8_fetch_branching 200 Json.null Json.null (Json.obj [("application", Json.null)])
     Json.null (Json.obj [("applications", Json.null)]) .failure Json.null Json.null
     .typeError .typeError (by decide) rfl rfl rfl rfl⟩

/-- Claim C9 (confirmed): every request carries the four standard headers —
Accept and Content-Type `application/json`, Accept-Charset `utf-8`, and a
User-Agent made of the fixed prefix `Rust Hyper/` and the client name — and
`get_application` additionally sets `Accept-Encoding: gzip` while
`get_applications` does not. -/
theorem C9_standard_headers (n : String) (len : Nat) :
    (Header.accept "application/json" ∈ registerHeaders n len ∧
     Header.contentType "application/json" ∈ registerHeaders n len ∧
     Header.acceptCharset "utf-8" ∈ registerHeaders n len ∧
     Header.userAgent ("Rust Hyper/" ++ n) ∈ registerHeaders n len) ∧
    (Header.accept "application/json" ∈ getApplicationHeaders n ∧
     Header.contentType "application/json" ∈ getApplicationHeaders n ∧
     Header.acceptCharset "utf-8" ∈ getApplicationHeaders n ∧
     Header.userAgent ("Rust Hyper/" ++ n) ∈ getApplicationHeaders n) ∧
    (Header.accept "application/json" ∈ getApplicationsHeaders n ∧
     Header.contentType "application/json" ∈ getApplicationsHeaders n ∧
     Header.acceptCharset "utf-8" ∈ getApplicationsHeaders n ∧
     Header.userAgent ("Rust Hyper/" ++ n) ∈ getApplicationsHeaders n) ∧
    Header.acceptEncoding "gzip" ∈ getApplicationHeaders n ∧
    (getApplicationsHeaders n).contains (Header.acceptEncoding "gzip") = false := by
  refine ⟨⟨?_, ?_, ?_, ?_⟩, ⟨?_, ?_, ?_, ?_⟩, ⟨?_, ?_, ?_, ?_⟩, ?_, ?_⟩ <;>
    first
      | rfl
      | simp [registerHeaders, getApplicationHeaders, getApplicationsHeaders, set_headers]

/-- Claim C10 (confirmed): once the `host_name` slot has been filled by a
consumed `hostName` entry and the loop reaches a `homePageUrl` key, decoding
fails with a duplicate-field error naming `homePageUrl` even though no field
is duplicated, because the `homepageUrl` arm's duplicate check inspects the
`host_name` slot. -/
theorem C10_hostName_then_homePageUrl (pre rest : List (String × Json)) (v : Json)
    (st : DeState)
    (h1 : processEntries initState pre = .ok st)
    (h2 : st.host_name.isSome = true) :
    Instance.deserialize (.obj (pre ++ (HOME_PAGE_URL, v) :: rest)) =
      .error (.duplicateField HOME_PAGE_URL) := by
  have hf : Field.fromStr HOME_PAGE_URL = .ok .homepageUrl := rfl
  simp only [Instance.deserialize, processEntries_append, h1]
  simp only [processEntries, processEntry, hf, handleField, h2, if_true]

/-- Witness for C10: an object whose `hostName` precedes its (single)
`homePageUrl` entry. -/
theorem C10_hostName_then_homePageUrl_witness :
    Instance.deserialize (.obj [("hostName", Json.str "Foo"), ("homePageUrl", Json.str "u")]) =
      .error (.duplicateField "homePageUrl") :=
  C10_hostName_then_homePageUrl [("hostName", Json.str "Foo")] [] (Json.str "u")
    { initState with host_name := some "Foo" } rfl rfl

end Eureka
